import Mathlib

set_option maxRecDepth 4000

/-!
Shallow embedding of the rustika Tika client (src/lib.rs, src/client.rs,
src/error.rs).  Pure data is translated directly; effectful operations
(environment lookup, process spawning, HTTP requests, filesystem writes)
are made explicit by passing the ambient world as arguments and returning
the resulting client state.  Rust panics (`expect`, `unimplemented!`) are
modelled by an explicit `panic` outcome constructor.
-/

namespace Rustika

/-- Error kinds of `ErrorKind` in src/error.rs: Config, IO, ReqWest
(network), Serde, Url, Addr, InvalidTypeName.  The `server` constructor is
Modelled from the spec: the `Error::server` constructor used by
`client.rs` is not defined in the files under src/ (src/error.rs only
defines `Error::config`); per the spec it builds the Network/Server error
class carrying a message. -/
inductive ErrorKind where
  | config (msg : String)
  | io (msg : String)
  | reqwest (msg : String)
  | serde (msg : String)
  | url (msg : String)
  | addr (msg : String)
  | invalidTypeName (name : String)
  | server (msg : String)
deriving DecidableEq, Repr

/-- Outcome of a Rust computation that may panic (via `expect` /
`unimplemented!`), return `Err`, or return `Ok`. -/
inductive Outcome (α : Type) where
  | panic (msg : String)
  | error (e : ErrorKind)
  | ok (a : α)
deriving DecidableEq, Repr

/-- Value of an environment variable as seen by `std::env::var`: present
and unicode-decodable, or present but not valid unicode. -/
inductive EnvVal where
  | str (s : String)
  | notUnicode
deriving DecidableEq, Repr

/-- Ambient environment read by the client: environment variables,
`which` lookups on the search path, the temp directory, and a filesystem
existence predicate (used only by `TikaServerFile::exists`, never by the
resolver). -/
structure Env where
  tikaServerJar : Option EnvVal
  tikaVersion : Option EnvVal
  tikaTranslator : Option EnvVal
  tikaServerEndpoint : Option String
  whichTikaRestServer : Option String
  whichJava : Option String
  tempDir : String
  fsExists : String → Bool

/-- Socket address (ip, port); `display` mirrors Rust's `Display` for
`SocketAddr`. -/
structure SocketAddr where
  ip : String
  port : Nat
deriving DecidableEq, Repr

/-- Rendering of a socket address, as interpolated by `format!`. -/
def SocketAddr.display (a : SocketAddr) : String :=
  a.ip ++ ":" ++ toString a.port

/-- TikaMode from src/lib.rs: spawn and bind a local server, or talk to an
already running server.  Urls are modelled as their string rendering
(URL parsing/validation belongs to the external `reqwest::Url`
collaborator and is treated as the identity on valid URL strings). -/
inductive TikaMode where
  | ClientServer (addr : SocketAddr)
  | ClientOnly (url : String)
deriving DecidableEq, Repr

/-- TikaMode::server_endpoint (src/lib.rs lines 35-40):
`ClientServer addr` yields the URL parsed from `"http://" ++ addr`,
`ClientOnly url` yields the url unchanged. -/
def TikaMode.server_endpoint : TikaMode → String
  | .ClientServer addr => "http://" ++ addr.display
  | .ClientOnly url => url

/-- Default TikaMode (src/lib.rs lines 48-62): `TIKA_SERVER_ENDPOINT` env
var if set, else a local server at 127.0.0.1:9998. -/
def TikaMode.defaultMode (env : Env) : TikaMode :=
  match env.tikaServerEndpoint with
  | some url => .ClientOnly url
  | none => .ClientServer ⟨"127.0.0.1", 9998⟩

/-- Verbosity of the spawned server (src/client.rs lines 501-513). -/
inductive Verbosity where
  | Silent
  | Verbose
deriving DecidableEq, Repr

/-- Translator selector (src/web/translate.rs). -/
inductive Translator where
  | Lingo24
  | Google
  | Yandex
  | Other (s : String)
deriving DecidableEq, Repr

/-- Default translator is Lingo24 (src/web/translate.rs). -/
def Translator.defaultTranslator : Translator := .Lingo24

/-- TikaServerFile (src/client.rs lines 596-604): a path executable found
on PATH, a jar pointed to by the `TIKA_SERVER_JAR` env var, or a
downloaded jar. -/
inductive TikaServerFile where
  | PathExecutable (path : String)
  | EnvVarJar (path : String)
  | Download (path : String)
deriving DecidableEq, Repr

/-- Location of the file the server jar points to
(src/client.rs lines 634-640). -/
def TikaServerFile.location : TikaServerFile → String
  | .PathExecutable path | .EnvVarJar path | .Download path => path

/-- TikaServerFile::exists (src/client.rs lines 629-631): probes the
filesystem for the location; this is the only consumer of `Env.fsExists`. -/
def TikaServerFile.existsOnDisk (f : TikaServerFile) (env : Env) : Bool :=
  env.fsExists f.location

/-- TikaServerFileLocation (src/client.rs lines 571-577): a local file or
the remote endpoint the jar can be downloaded from. -/
inductive TikaServerFileLocation where
  | File (f : TikaServerFile)
  | Remote (url : String)
deriving DecidableEq, Repr

/-- TikaConfig::default_version (src/client.rs lines 535-537): the
`TIKA_VERSION` env var, defaulting to "1.20" on any lookup error. -/
def TikaConfig.default_version (env : Env) : String :=
  match env.tikaVersion with
  | some (.str v) => v
  | _ => "1.20"

/-- TikaConfig::default_translator (src/client.rs lines 541-545): the
`TIKA_TRANSLATOR` env var as an `Other` translator, defaulting to
`Translator::default()`. -/
def TikaConfig.default_translator (env : Env) : Translator :=
  match env.tikaTranslator with
  | some (.str v) => .Other v
  | _ => Translator.defaultTranslator

/-- TikaConfig::remote_server_jar (src/client.rs lines 549-551): the
maven download URL parameterized by the version string. -/
def TikaConfig.remote_server_jar (version : String) : String :=
  "http://search.maven.org/remotecontent?filepath=org/apache/tika/tika-server/"
    ++ version ++ "/tika-server-" ++ version ++ ".jar"

/-- TikaServerFile::from_env (src/client.rs lines 609-626).  A set and
unicode-decodable `TIKA_SERVER_JAR` yields `EnvVarJar`; set but not
unicode panics (the source calls `Err(()).expect(..)`); otherwise the
`tika-rest-server` executable is looked up on PATH, and its absence is a
Config error. -/
def TikaServerFile.from_env (env : Env) : Outcome TikaServerFile :=
  match env.tikaServerJar with
  | some (.str p) => .ok (.EnvVarJar p)
  | some .notUnicode =>
      .panic "TIKA_SERVER_JAR env var found but did not contain valid unicode"
  | none =>
      match env.whichTikaRestServer with
      | some p => .ok (.PathExecutable p)
      | none => .error (.config "Could not find system wide tika-rest-server executable")

/-- Default TikaServerFileLocation (src/client.rs lines 579-589): a local
file if `from_env` succeeds, else the remote download placeholder built
from the default version. -/
def TikaServerFileLocation.defaultLoc (env : Env) : Outcome TikaServerFileLocation :=
  match TikaServerFile.from_env env with
  | .ok f => .ok (.File f)
  | .error _ =>
      .ok (.Remote (TikaConfig.remote_server_jar (TikaConfig.default_version env)))
  | .panic m => .panic m

/-- TikaConfig (src/client.rs lines 516-530); paths are modelled as
strings. -/
structure TikaConfig where
  tika_version : String
  tika_path : String
  tika_server_file : TikaServerFileLocation
  tika_mode : TikaMode
  tika_translator : Translator
  server_verbosity : Verbosity
deriving DecidableEq, Repr

/-- Handle to the spawned child process; `std::process::Child` keeps
optional stdout/stderr pipes, which `start_server` installs as
`Stdio::piped()` and may later release with `take()`. -/
structure Child where
  stdoutPipe : Bool
  stderrPipe : Bool
deriving DecidableEq, Repr

/-- TikaClient (src/client.rs lines 28-38); the inner `reqwest::Client`
is stateless and omitted. -/
structure TikaClient where
  config : TikaConfig
  server_endpoint : String
  server_handle : Option Child
deriving DecidableEq, Repr

/-- Decidable equality for `Except`, used by the world records below. -/
instance exceptDecEq {ε α : Type} [DecidableEq ε] [DecidableEq α] :
    DecidableEq (Except ε α)
  | .error e, .error f =>
      if h : e = f then .isTrue (by rw [h])
      else .isFalse (by intro hh; cases hh; exact h rfl)
  | .error _, .ok _ => .isFalse (by intro h; cases h)
  | .ok _, .error _ => .isFalse (by intro h; cases h)
  | .ok a, .ok b =>
      if h : a = b then .isTrue (by rw [h])
      else .isFalse (by intro hh; cases hh; exact h rfl)

/-- TikaBuilder (src/client.rs lines 375-389). -/
structure TikaBuilder where
  tika_mode : TikaMode
  tika_version : Option String
  tika_path : Option String
  tika_server_file : TikaServerFileLocation
  tika_translator : Option Translator
  server_verbosity : Verbosity
deriving DecidableEq, Repr

/-- TikaBuilder::build (src/client.rs lines 478-497).  Note that the
config's `tika_server_file` field is set to
`TikaServerFileLocation::default()` — recomputed from the environment —
and the builder's own `tika_server_file` field is never read. -/
def TikaBuilder.build (b : TikaBuilder) (env : Env) : Outcome TikaClient :=
  match TikaServerFileLocation.defaultLoc env with
  | .panic m => .panic m
  | .error e => .error e
  | .ok loc =>
      let config : TikaConfig :=
        { tika_server_file := loc
          tika_version := b.tika_version.getD (TikaConfig.default_version env)
          tika_path := b.tika_path.getD env.tempDir
          tika_mode := b.tika_mode
          tika_translator := b.tika_translator.getD (TikaConfig.default_translator env)
          server_verbosity := b.server_verbosity }
      .ok { config := config
            server_endpoint := config.tika_mode.server_endpoint
            server_handle := none }

/-- Result of one `BufRead::lines` step on the child's stderr: a line
was read, or the read itself failed with an io error. -/
inductive LineEvent where
  | line (s : String)
  | ioError (msg : String)
deriving DecidableEq, Repr

/-- Startup banner the readiness loop looks for
(src/client.rs line 64): `line.starts_with(..)`. -/
def readyBanner : String := "INFO  Started Apache Tika server at"

/-- Prefix test on strings as character sequences; models Rust's
`str::starts_with(pat)`. -/
def strStartsWith (s pat : String) : Bool :=
  pat.data.isPrefixOf s.data

/-- Readiness loop of TikaClient::start_server (src/client.rs lines
59-67): read stderr line by line; a failing read propagates its io
error (`let line = line?`); a line starting with the banner breaks out of
the loop; end of stream simply terminates the loop.  Returns the events
left unread after the loop exits. -/
def readinessScan : List LineEvent → Except String (List LineEvent)
  | [] => .ok []
  | .ioError msg :: _ => .error msg
  | .line s :: rest =>
      if strStartsWith s readyBanner then .ok rest else readinessScan rest

/-- Host/port arguments appended to the child command
(src/client.rs lines 657-660). -/
def hostPortArgs (addr : SocketAddr) : List String :=
  ["--host", addr.ip, "--port", toString addr.port]

/-- Invocation built by TikaServerFile::start_server (src/client.rs lines
643-655): a path executable is run directly; a jar is run through java
(`which::which("java").expect(..)` panics when java is absent) with a
classpath argument and the server entry point class. -/
def TikaServerFile.invocation (f : TikaServerFile) (env : Env) (addr : SocketAddr) :
    Outcome (String × List String) :=
  match f with
  | .PathExecutable path => .ok (path, hostPortArgs addr)
  | .EnvVarJar path | .Download path =>
      match env.whichJava with
      | none => .panic "Failed to locate java in PATH."
      | some java =>
          .ok (java, ["-cp", path, "org.apache.tika.server.TikaServerCli"] ++ hostPortArgs addr)

/-- World surrounding one download attempt: the GET response body (or a
transport error), and whether `File::create` and `io::copy` succeed. -/
structure DownloadWorld where
  getResult : Except String (List Nat)
  createOk : Bool
  copyOk : Bool
deriving DecidableEq, Repr

/-- World surrounding one spawn attempt: whether `cmd.spawn()` succeeds,
and the stderr line events the child will produce before end of stream. -/
structure SpawnWorld where
  spawnResult : Except String Unit
  stderrLines : List LineEvent
  download : DownloadWorld
deriving DecidableEq, Repr

/-- Spawn step of TikaServerFile::start_server (src/client.rs lines
643-667): build the invocation, then spawn with both stdout and stderr
piped (`Stdio::piped()`); a spawn failure is an io error. -/
def TikaServerFile.spawnChild (f : TikaServerFile) (env : Env) (addr : SocketAddr)
    (spawnResult : Except String Unit) : Outcome Child :=
  match f.invocation env addr with
  | .panic m => .panic m
  | .error e => .error e
  | .ok _ =>
      match spawnResult with
      | .error e => .error (.io e)
      | .ok _ => .ok { stdoutPipe := true, stderrPipe := true }

/-- Outcome of TikaClient::download_server_jar together with the
side-effect traces needed to state its contract: the bytes written to the
filesystem and the updates applied to `config.tika_server_file`. -/
structure DownloadResult where
  client : TikaClient
  file : TikaServerFile
  written : Nat
  fsWrites : List (String × List Nat)
  configUpdates : List TikaServerFileLocation
deriving DecidableEq, Repr

/-- TikaClient::download_server_jar (src/client.rs lines 120-145): GET
the remote jar URL (transport failures surface as reqwest errors),
create `tika_path/tika-server.jar` (io error on failure), copy the body
into it reporting the bytes written, then assign
`config.tika_server_file := File (Download path)` — the single config
update — and return that file. -/
def TikaClient.download_server_jar (c : TikaClient) (w : DownloadWorld) :
    Outcome DownloadResult :=
  match w.getResult with
  | .error e => .error (.reqwest e)
  | .ok body =>
      let server_jar := c.config.tika_path ++ "/tika-server.jar"
      if w.createOk then
        if w.copyOk then
          let newLoc := TikaServerFileLocation.File (.Download server_jar)
          .ok { client := { c with config := { c.config with tika_server_file := newLoc } }
                file := .Download server_jar
                written := body.length
                fsWrites := [(server_jar, body)]
                configUpdates := [newLoc] }
        else .error (.io "failed to copy the response body to the jar file")
      else .error (.io "failed to create the jar file")

/-- TikaClient::start_server (src/client.rs lines 42-82).  Returns the
call's outcome together with the client state after the call.  In
`ClientServer` mode the server file is resolved (downloading first when
it is still the `Remote` placeholder), the child is spawned, its stderr
pipe is taken (its absence is a Config error), the readiness loop scans
stderr, the pipes are released again when verbosity is `Verbose`, and the
handle is stored.  In `ClientOnly` mode the call fails with a Config
error and the state is untouched. -/
def TikaClient.resolveServerFile (c : TikaClient) (dw : DownloadWorld) :
    Outcome (TikaClient × TikaServerFile) :=
  match c.config.tika_server_file with
  | .Remote _ =>
      match c.download_server_jar dw with
      | .panic m => .panic m
      | .error e => .error e
      | .ok r => .ok (r.client, r.file)
  | .File f => .ok (c, f)

/-- Readiness phase of TikaClient::start_server (src/client.rs lines
51-76) on a spawned child: take the stderr pipe (its absence is a Config
error), run the readiness loop over the stderr line events, release both
pipes when verbosity is Verbose, and store the handle. -/
def TikaClient.awaitReady (c1 : TikaClient) (child : Child) (stderrLines : List LineEvent) :
    Outcome Unit × TikaClient :=
  if child.stderrPipe then
    match readinessScan stderrLines with
    | .error e => (.error (.io e), c1)
    | .ok _ =>
        let child' :=
          if c1.config.server_verbosity = Verbosity.Verbose then
            { child with stderrPipe := false, stdoutPipe := false }
          else child
        (.ok (), { c1 with server_handle := some child' })
  else (.error (.config "Failed to read tika server logs"), c1)

def TikaClient.start_server (c : TikaClient) (env : Env) (w : SpawnWorld) :
    Outcome Unit × TikaClient :=
  match c.config.tika_mode with
  | .ClientServer addr =>
      match c.resolveServerFile w.download with
      | .panic m => (.panic m, c)
      | .error e => (.error e, c)
      | .ok (c1, f) =>
          match f.spawnChild env addr w.spawnResult with
          | .panic m => (.panic m, c1)
          | .error e => (.error e, c1)
          | .ok child => c1.awaitReady child w.stderrLines
  | .ClientOnly _ =>
      (.error (.config "Client is configured as ClientOnly and cannot spawn a server instance"),
        c)

/-- Result of TikaClient::stop_server: the returned value, the client
state after the call, and the error-level log lines emitted. -/
structure StopResult where
  result : Except ErrorKind Unit
  client : TikaClient
  errorLogs : List String
deriving DecidableEq, Repr

/-- TikaClient::stop_server (src/client.rs lines 95-117): with no handle
present it returns Ok; with a handle it sends kill, logging and returning
a Server error when the kill fails.  No branch assigns
`self.server_handle`, so the handle field is left as it was. -/
def TikaClient.stop_server (c : TikaClient) (killResult : Except String Unit) : StopResult :=
  match c.server_handle with
  | some _ =>
      match killResult with
      | .error e =>
          let msg := "Failed to shutdown the running tika server instance on "
            ++ c.server_endpoint ++ ": " ++ e
          { result := .error (.server msg), client := c, errorLogs := [msg] }
      | .ok _ => { result := .ok (), client := c, errorLogs := [] }
  | none => { result := .ok (), client := c, errorLogs := [] }

/-- Observable outcome of running Drop for TikaClient. -/
inductive DropOutcome where
  | normal
  | panicked (msg : String)
deriving DecidableEq, Repr

/-- Drop for TikaClient (src/client.rs lines 364-372):
`self.stop_server().expect(..)` — a failing stop panics inside the
destructor with the formatted message. -/
def TikaClient.dropClient (c : TikaClient) (killResult : Except String Unit) : DropOutcome :=
  match (c.stop_server killResult).result with
  | .ok _ => .normal
  | .error _ =>
      .panicked ("Failed shutting down the Tika Server on " ++ c.server_endpoint)

/-- TikaClient::restart_server (src/client.rs lines 85-92): stop (its
error propagates through `?`), then, when a new address is supplied,
switch the mode and recompute the endpoint, then start. -/
def TikaClient.restart_server (c : TikaClient) (env : Env) (addr : Option SocketAddr)
    (killResult : Except String Unit) (w : SpawnWorld) : Outcome Unit × TikaClient :=
  match (c.stop_server killResult).result with
  | .error e => (.error e, (c.stop_server killResult).client)
  | .ok _ =>
      let c1 :=
        match addr with
        | some a =>
            { (c.stop_server killResult).client with
              config := { (c.stop_server killResult).client.config with
                tika_mode := TikaMode.ClientServer a }
              server_endpoint := (TikaMode.ClientServer a).server_endpoint }
        | none => (c.stop_server killResult).client
      c1.start_server env w

/-- World surrounding one HTTP request: the result of `send()` and the
result of reading the response text. -/
structure RequestWorld where
  sendResult : Except String Unit
  textResult : Except String String
deriving DecidableEq, Repr

/-- TikaClient::detect_language (src/client.rs lines 340-355): PUT the
content, read the response text; an empty text is a Server error
("Failed to detect language. Got empty response."), otherwise the text is
the detected language. -/
def TikaClient.detect_language (_c : TikaClient) (w : RequestWorld) :
    Except ErrorKind String :=
  match w.sendResult with
  | .error e => .error (.reqwest e)
  | .ok _ =>
      match w.textResult with
      | .error e => .error (.reqwest e)
      | .ok lang =>
          if lang = "" then
            .error (.server "Failed to detect language. Got empty response.")
          else .ok lang

/-- One client operation together with the ambient world it runs in;
`request` stands for the read-only HTTP operations (get_json, detectors,
parsers, mime_types, translate, detect_mime, detect_language), none of
which touch the client's fields. -/
inductive ClientOp where
  | start (w : SpawnWorld)
  | stop (killResult : Except String Unit)
  | restart (addr : Option SocketAddr) (killResult : Except String Unit) (w : SpawnWorld)
  | request (w : RequestWorld)
deriving DecidableEq, Repr

/-- Client state after one operation. -/
def TikaClient.step (c : TikaClient) (env : Env) : ClientOp → TikaClient
  | .start w => (c.start_server env w).2
  | .stop k => (c.stop_server k).client
  | .restart a k w => (c.restart_server env a k w).2
  | .request _ => c

/-- Client state after a sequence of operations. -/
def TikaClient.runOps (c : TikaClient) (env : Env) (ops : List ClientOp) : TikaClient :=
  ops.foldl (fun c op => c.step env op) c

/-- Invariant: a client in `ClientOnly` (remote-only) mode holds no
process handle. -/
def remoteOnlyInv (c : TikaClient) : Prop :=
  ∀ u, c.config.tika_mode = TikaMode.ClientOnly u → c.server_handle = none

/-! Concrete fixtures used to instantiate the theorems below. -/

/-- Environment with nothing set: no env vars, nothing on PATH. -/
def envEx : Env :=
  { tikaServerJar := none
    tikaVersion := none
    tikaTranslator := none
    tikaServerEndpoint := none
    whichTikaRestServer := none
    whichJava := none
    tempDir := "/tmp"
    fsExists := fun _ => false }

/-- Default local bind address 127.0.0.1:9998. -/
def addrEx : SocketAddr := { ip := "127.0.0.1", port := 9998 }

/-- Config for a managed local server started from a PATH executable. -/
def configEx : TikaConfig :=
  { tika_version := "1.20"
    tika_path := "/tmp"
    tika_server_file := .File (.PathExecutable "/usr/local/bin/tika-rest-server")
    tika_mode := .ClientServer addrEx
    tika_translator := .Lingo24
    server_verbosity := .Silent }

/-- Managed-local client with no live process. -/
def clientEx : TikaClient :=
  { config := configEx
    server_endpoint := "http://127.0.0.1:9998"
    server_handle := none }

/-- Child handle with both pipes captured, as produced by spawning. -/
def childEx : Child := { stdoutPipe := true, stderrPipe := true }

/-- Managed-local client currently holding a live process handle. -/
def liveClientEx : TikaClient := { clientEx with server_handle := some childEx }

/-- Remote-only client. -/
def remoteClientEx : TikaClient :=
  { config := { configEx with tika_mode := .ClientOnly "http://localhost:9998" }
    server_endpoint := "http://localhost:9998"
    server_handle := none }

/-- Spawn world: spawn succeeds and the child's stderr ends immediately
(end of stream before any banner line). -/
def spawnEx : SpawnWorld :=
  { spawnResult := .ok ()
    stderrLines := []
    download := { getResult := .ok [], createOk := true, copyOk := true } }

/-- Request world for a successful request answering "en". -/
def reqEx : RequestWorld := { sendResult := .ok (), textResult := .ok "en" }

/-! Helper lemmas shared by the claim theorems. -/

/-- The readiness loop returns cleanly at end of stream when every event
is a line read that does not start with the banner. -/
theorem readinessScan_no_banner (l : List LineEvent)
    (h : ∀ e ∈ l, ∃ s, e = .line s ∧ strStartsWith s readyBanner = false) :
    readinessScan l = .ok [] := by
  induction l with
  | nil => rfl
  | cons e rest ih =>
      obtain ⟨s, he, hs⟩ := h e (by simp)
      subst he
      simp only [readinessScan, hs, Bool.false_eq_true, if_false]
      exact ih fun e' he' => h e' (by simp [he'])

/-- A stop call never reassigns the handle: the client is returned as it
was. -/
theorem stop_server_client_eq (c : TikaClient) (k : Except String Unit) :
    (c.stop_server k).client = c := by
  cases h : c.server_handle <;> cases k <;> simp [TikaClient.stop_server, h]

/-- Starting a remote-only client fails with the Config error and leaves
the state untouched. -/
theorem start_server_clientOnly (c : TikaClient) (env : Env) (w : SpawnWorld)
    (u : String) (h : c.config.tika_mode = .ClientOnly u) :
    c.start_server env w =
      (.error (.config
        "Client is configured as ClientOnly and cannot spawn a server instance"), c) := by
  unfold TikaClient.start_server
  rw [h]

/-- Resolving the server file never changes the mode or the handle. -/
theorem resolveServerFile_preserves (c : TikaClient) (dw : DownloadWorld)
    (c1 : TikaClient) (f : TikaServerFile)
    (h : c.resolveServerFile dw = .ok (c1, f)) :
    c1.config.tika_mode = c.config.tika_mode ∧ c1.server_handle = c.server_handle := by
  unfold TikaClient.resolveServerFile at h
  cases hsf : c.config.tika_server_file with
  | File f0 =>
      rw [hsf] at h
      cases h
      exact ⟨rfl, rfl⟩
  | Remote r =>
      rw [hsf] at h
      unfold TikaClient.download_server_jar at h
      cases hg : dw.getResult with
      | error e => rw [hg] at h; cases h
      | ok body =>
          rw [hg] at h
          cases hc : dw.createOk <;> rw [hc] at h <;> simp at h
          cases hcp : dw.copyOk <;> rw [hcp] at h <;> simp at h
          obtain ⟨hc1, _⟩ := h
          subst hc1
          exact ⟨rfl, rfl⟩

/-- Starting a client never changes its mode. -/
theorem start_server_preserves_mode (c : TikaClient) (env : Env) (w : SpawnWorld) :
    (c.start_server env w).2.config.tika_mode = c.config.tika_mode := by
  unfold TikaClient.start_server
  cases hm : c.config.tika_mode with
  | ClientOnly u => exact hm
  | ClientServer addr =>
      cases hr : c.resolveServerFile w.download with
      | panic m => simpa using hm
      | error e => simpa using hm
      | ok p =>
          obtain ⟨c1, f⟩ := p
          have hpres := (resolveServerFile_preserves c w.download c1 f hr).1
          cases hs : f.spawnChild env addr w.spawnResult with
          | panic m => simpa [hs] using hpres.trans hm
          | error e => simpa [hs] using hpres.trans hm
          | ok child =>
              unfold TikaClient.awaitReady
              cases hpipe : child.stderrPipe with
              | false => simpa [hs, hpipe] using hpres.trans hm
              | true =>
                  cases hscan : readinessScan w.stderrLines with
                  | error e => simpa [hs, hpipe, hscan] using hpres.trans hm
                  | ok rest => simpa [hs, hpipe, hscan] using hpres.trans hm

/-- Starting preserves the remote-only invariant. -/
theorem start_server_inv (c : TikaClient) (env : Env) (w : SpawnWorld)
    (h : remoteOnlyInv c) : remoteOnlyInv (c.start_server env w).2 := by
  intro u hu
  have hmode : c.config.tika_mode = TikaMode.ClientOnly u :=
    (start_server_preserves_mode c env w).symm.trans hu
  have heq := start_server_clientOnly c env w u hmode
  have hpost : (c.start_server env w).2 = c := congrArg Prod.snd heq
  rw [hpost]
  exact h u hmode

/-- Restarting preserves the remote-only invariant. -/
theorem restart_server_inv (c : TikaClient) (env : Env) (a : Option SocketAddr)
    (k : Except String Unit) (w : SpawnWorld)
    (h : remoteOnlyInv c) : remoteOnlyInv (c.restart_server env a k w).2 := by
  unfold TikaClient.restart_server
  cases hres : (c.stop_server k).result with
  | error e =>
      intro u hu
      rw [stop_server_client_eq] at hu ⊢
      exact h u hu
  | ok _ =>
      cases a with
      | none =>
          simp only [stop_server_client_eq]
          exact start_server_inv c env w h
      | some a0 =>
          refine start_server_inv _ env w ?_
          intro u hu
          simp at hu

/-- Each single operation preserves the remote-only invariant. -/
theorem step_preserves_inv (c : TikaClient) (env : Env) (op : ClientOp)
    (h : remoteOnlyInv c) : remoteOnlyInv (c.step env op) := by
  cases op with
  | start w => exact start_server_inv c env w h
  | stop k =>
      intro u hu
      rw [TikaClient.step, stop_server_client_eq] at hu ⊢
      exact h u hu
  | restart a k w => exact restart_server_inv c env a k w h
  | request w => exact h

/-- Any sequence of operations preserves the remote-only invariant. -/
theorem runOps_preserves_inv (env : Env) (ops : List ClientOp) (c : TikaClient)
    (h : remoteOnlyInv c) : remoteOnlyInv (c.runOps env ops) := by
  induction ops generalizing c with
  | nil => exact h
  | cons op rest ih => exact ih (c.step env op) (step_preserves_inv c env op h)

/-! Claim theorems. -/

/-- C1 (counterexample): the claim says that when the captured stderr
stream ends before any banner line, start fails with a Network/IO error
and stores no handle.  On a client whose stderr stream is empty (end of
stream immediately, no banner), `start_server` returns Ok and stores the
process handle. -/
theorem C1_counterexample :
    spawnEx.stderrLines = []
    ∧ (clientEx.start_server envEx spawnEx).1 = .ok ()
    ∧ (clientEx.start_server envEx spawnEx).2.server_handle = some childEx := by
  refine ⟨rfl, ?_, ?_⟩ <;> rfl

/-- C1 (amended): when the spawned child's stderr reaches end of stream
before any banner line — every event being a successfully read line that
does not start with the banner — the readiness loop simply terminates,
`start_server` returns success and stores the process handle; only an io
error while reading a line makes start fail. -/
theorem C1_start_succeeds_on_eof (c : TikaClient) (env : Env) (w : SpawnWorld)
    (addr : SocketAddr) (f : TikaServerFile) (pr : String × List String)
    (hm : c.config.tika_mode = .ClientServer addr)
    (hf : c.config.tika_server_file = .File f)
    (hi : f.invocation env addr = .ok pr)
    (hspawn : w.spawnResult = .ok ())
    (hl : ∀ e ∈ w.stderrLines, ∃ s, e = .line s ∧ strStartsWith s readyBanner = false) :
    (c.start_server env w).1 = .ok ()
    ∧ (c.start_server env w).2.server_handle.isSome = true := by
  have hscan := readinessScan_no_banner w.stderrLines hl
  have hres : c.resolveServerFile w.download = .ok (c, f) := by
    unfold TikaClient.resolveServerFile
    rw [hf]
  have hsp : f.spawnChild env addr w.spawnResult =
      .ok { stdoutPipe := true, stderrPipe := true } := by
    unfold TikaServerFile.spawnChild
    rw [hi, hspawn]
  unfold TikaClient.start_server TikaClient.awaitReady
  rw [hm]
  simp [hres, hsp, hscan]

/-- C1 (witness). -/
theorem C1_witness :
    (clientEx.start_server envEx spawnEx).1 = .ok ()
    ∧ (clientEx.start_server envEx spawnEx).2.server_handle.isSome = true :=
  C1_start_succeeds_on_eof clientEx envEx spawnEx addrEx
    (.PathExecutable "/usr/local/bin/tika-rest-server")
    ("/usr/local/bin/tika-rest-server", hostPortArgs addrEx)
    rfl rfl rfl rfl (by simp [spawnEx])

/-- C2 (counterexample): the claim says every stop call clears the local
ProcessHandle and a second consecutive stop never errors.  On a client
with a live handle, a successful stop leaves the handle in place, and
after a failed stop a second stop whose kill also fails errors again. -/
theorem C2_counterexample :
    (liveClientEx.stop_server (.ok ())).result = .ok ()
    ∧ (liveClientEx.stop_server (.ok ())).client.server_handle = some childEx
    ∧ ((liveClientEx.stop_server (.error "EPERM")).client.stop_server
        (.error "EPERM")).result
      = .error (.server
          "Failed to shutdown the running tika server instance on http://127.0.0.1:9998: EPERM") := by
  refine ⟨rfl, rfl, ?_⟩
  rfl

/-- C2 (amended): stop with no process present succeeds trivially; with a
process present, a failed termination signal is logged and surfaces as a
Server error; in every case the ProcessHandle field is left unchanged —
never cleared — so a second consecutive stop repeats the termination
attempt and behaves exactly like a first stop from the same state. -/
theorem C2_stop_behaviour (c : TikaClient) (k k2 : Except String Unit) :
    (c.stop_server k).client = c
    ∧ (c.server_handle = none → (c.stop_server k).result = .ok ())
    ∧ (∀ ch e, c.server_handle = some ch → k = .error e →
        (c.stop_server k).result = .error (.server
          ("Failed to shutdown the running tika server instance on "
            ++ c.server_endpoint ++ ": " ++ e))
        ∧ (c.stop_server k).errorLogs ≠ [])
    ∧ ((c.stop_server k).client.stop_server k2).result = (c.stop_server k2).result := by
  refine ⟨stop_server_client_eq c k, ?_, ?_, ?_⟩
  · intro h
    simp [TikaClient.stop_server, h]
  · intro ch e hch hk
    subst hk
    simp [TikaClient.stop_server, hch]
  · rw [stop_server_client_eq]

/-- C2 (witness). -/
theorem C2_witness :
    (liveClientEx.stop_server (Except.error "EPERM")).client = liveClientEx
    ∧ (liveClientEx.stop_server (Except.error "EPERM")).result
        = .error (.server
            "Failed to shutdown the running tika server instance on http://127.0.0.1:9998: EPERM") :=
  ⟨(C2_stop_behaviour liveClientEx (Except.error "EPERM") (Except.ok ())).1,
    ((C2_stop_behaviour liveClientEx (Except.error "EPERM") (Except.ok ())).2.2.1
      childEx "EPERM" rfl rfl).1⟩

/-- C3 (counterexample): the claim says a failing stop during drop never
escapes as an unhandled fault.  On a client with a live handle whose kill
fails, Drop panics (the source calls `.expect` on the stop result). -/
theorem C3_counterexample :
    liveClientEx.dropClient (.error "EPERM")
      = .panicked "Failed shutting down the Tika Server on http://127.0.0.1:9998" := by
  rfl

/-- C3 (amended): dropping the client invokes stop automatically; when
the stop succeeds (no process, or kill succeeded) the destructor returns
normally, but when the stop fails the failure is logged and then escapes
the destructor as a panic carrying the formatted message. -/
theorem C3_drop_behaviour (c : TikaClient) (k : Except String Unit) :
    ((c.server_handle = none ∨ k = .ok ()) → c.dropClient k = .normal)
    ∧ (∀ ch e, c.server_handle = some ch → k = .error e →
        c.dropClient k
          = .panicked ("Failed shutting down the Tika Server on " ++ c.server_endpoint)
        ∧ (c.stop_server k).errorLogs ≠ []) := by
  constructor
  · rintro (h | h)
    · simp [TikaClient.dropClient, TikaClient.stop_server, h]
    · subst h
      cases hch : c.server_handle <;>
        simp [TikaClient.dropClient, TikaClient.stop_server, hch]
  · intro ch e hch hk
    subst hk
    simp [TikaClient.dropClient, TikaClient.stop_server, hch]

/-- C3 (witness). -/
theorem C3_witness :
    liveClientEx.dropClient (Except.ok ()) = .normal
    ∧ (liveClientEx.dropClient (Except.error "ESRCH")
        = .panicked ("Failed shutting down the Tika Server on "
            ++ liveClientEx.server_endpoint)
      ∧ (liveClientEx.stop_server (Except.error "ESRCH")).errorLogs ≠ []) :=
  ⟨(C3_drop_behaviour liveClientEx (Except.ok ())).1 (Or.inr rfl),
    (C3_drop_behaviour liveClientEx (Except.error "ESRCH")).2 childEx "ESRCH" rfl rfl⟩

/-- Line whose text contains the readiness banner as an inner substring
but does not start with it. -/
def bannerInsideLine : String :=
  "2019-06-01 INFO  Started Apache Tika server at http://127.0.0.1:9998"

/-- C4 (counterexample): the claim says the loop reaches Ready on any
line that contains the banner anywhere.  A line that carries the banner
after a leading timestamp is not matched (the source uses
`starts_with`), so the loop keeps scanning and hits the subsequent read
error instead of stopping. -/
theorem C4_counterexample :
    (∃ a b, bannerInsideLine = a ++ readyBanner ++ b)
    ∧ strStartsWith bannerInsideLine readyBanner = false
    ∧ readinessScan [LineEvent.line bannerInsideLine, LineEvent.ioError "pipe closed"]
        = .error "pipe closed" := by
  refine ⟨⟨"2019-06-01 ", " http://127.0.0.1:9998", by decide⟩, by decide, by decide⟩

/-- C4 (amended): the readiness loop transitions to Ready upon observing
the first line that starts with the banner (a line-prefix match, not
full-line equality and not a substring match anywhere in the line), and
scanning stops at that line, leaving the remaining events unread. -/
theorem C4_scan_stops_at_first_banner_line (pre post : List LineEvent) (s : String)
    (hpre : ∀ e ∈ pre, ∃ t, e = .line t ∧ strStartsWith t readyBanner = false)
    (hs : strStartsWith s readyBanner = true) :
    readinessScan (pre ++ LineEvent.line s :: post) = .ok post := by
  induction pre with
  | nil => simp [readinessScan, hs]
  | cons e rest ih =>
      obtain ⟨t, he, ht⟩ := hpre e (by simp)
      subst he
      simp only [List.cons_append, readinessScan, ht, Bool.false_eq_true, if_false]
      exact ih fun e' he' => hpre e' (by simp [he'])

/-- C4 (witness). -/
theorem C4_witness :
    readinessScan
        [LineEvent.line "WARN  starting",
          LineEvent.line "INFO  Started Apache Tika server at http://127.0.0.1:9998",
          LineEvent.ioError "pipe closed"]
      = .ok [LineEvent.ioError "pipe closed"] :=
  C4_scan_stops_at_first_banner_line [LineEvent.line "WARN  starting"]
    [LineEvent.ioError "pipe closed"]
    "INFO  Started Apache Tika server at http://127.0.0.1:9998"
    (by intro e he
        simp only [List.mem_singleton] at he
        exact ⟨"WARN  starting", he, by decide⟩)
    (by decide)

/-- C5 (confirmed): artifact-location resolution is a pure function of
the env-var pointer, the PATH lookup, and nothing else, with fixed total
precedence: a set and unicode-decodable `TIKA_SERVER_JAR` yields the
environment artifact (without any filesystem existence check — the
result is invariant under the filesystem predicate); otherwise a found
`tika-rest-server` executable yields the system executable; otherwise the
remote-download placeholder. -/
theorem C5_resolver_precedence (env : Env) :
    (∀ p, env.tikaServerJar = some (.str p) →
      TikaServerFileLocation.defaultLoc env = .ok (.File (.EnvVarJar p)))
    ∧ (∀ p, env.tikaServerJar = none → env.whichTikaRestServer = some p →
      TikaServerFileLocation.defaultLoc env = .ok (.File (.PathExecutable p)))
    ∧ (env.tikaServerJar = none → env.whichTikaRestServer = none →
      TikaServerFileLocation.defaultLoc env
        = .ok (.Remote (TikaConfig.remote_server_jar (TikaConfig.default_version env))))
    ∧ (∀ g, TikaServerFileLocation.defaultLoc { env with fsExists := g }
        = TikaServerFileLocation.defaultLoc env) := by
  refine ⟨?_, ?_, ?_, fun g => rfl⟩
  · intro p h
    simp [TikaServerFileLocation.defaultLoc, TikaServerFile.from_env, h]
  · intro p h1 h2
    simp [TikaServerFileLocation.defaultLoc, TikaServerFile.from_env, h1, h2]
  · intro h1 h2
    simp [TikaServerFileLocation.defaultLoc, TikaServerFile.from_env, h1, h2]

/-- C5 (witness). -/
theorem C5_witness :
    TikaServerFileLocation.defaultLoc { envEx with tikaServerJar := some (.str "/opt/tika.jar") }
      = .ok (.File (.EnvVarJar "/opt/tika.jar"))
    ∧ TikaServerFileLocation.defaultLoc envEx
      = .ok (.Remote (TikaConfig.remote_server_jar (TikaConfig.default_version envEx))) :=
  ⟨(C5_resolver_precedence { envEx with tikaServerJar := some (.str "/opt/tika.jar") }).1
      "/opt/tika.jar" rfl,
    (C5_resolver_precedence envEx).2.2.1 rfl rfl⟩

/-- C6 (confirmed): the endpoint derived from `ClientServer addr` is the
URL string "http://" followed by the rendered bind address, and the
endpoint derived from `ClientOnly url` is that URL unchanged. -/
theorem C6_endpoint_derivation :
    (∀ addr : SocketAddr,
      (TikaMode.ClientServer addr).server_endpoint = "http://" ++ addr.display)
    ∧ (∀ url : String, (TikaMode.ClientOnly url).server_endpoint = url) :=
  ⟨fun _ => rfl, fun _ => rfl⟩

/-- C7 (confirmed): starting a remote-only client fails with the Config
error and leaves the client untouched, and the invariant that a
remote-only client holds no process handle is preserved by every
sequence of start, stop, restart and request operations. -/
theorem C7_remote_only_never_spawns :
    (∀ (c : TikaClient) (env : Env) (w : SpawnWorld) (u : String),
      c.config.tika_mode = TikaMode.ClientOnly u →
      c.start_server env w =
        (.error (.config
          "Client is configured as ClientOnly and cannot spawn a server instance"), c))
    ∧ (∀ (c : TikaClient) (env : Env) (ops : List ClientOp),
        remoteOnlyInv c → remoteOnlyInv (c.runOps env ops)) :=
  ⟨fun c env w u h => start_server_clientOnly c env w u h,
    fun c env ops h => runOps_preserves_inv env ops c h⟩

/-- C7 (witness). -/
theorem C7_witness :
    remoteClientEx.start_server envEx spawnEx =
      (.error (.config
        "Client is configured as ClientOnly and cannot spawn a server instance"),
        remoteClientEx)
    ∧ remoteOnlyInv (remoteClientEx.runOps envEx
        [ClientOp.start spawnEx, ClientOp.stop (Except.ok ()),
          ClientOp.restart none (Except.ok ()) spawnEx, ClientOp.request reqEx]) :=
  ⟨C7_remote_only_never_spawns.1 remoteClientEx envEx spawnEx "http://localhost:9998" rfl,
    C7_remote_only_never_spawns.2 remoteClientEx envEx
      [ClientOp.start spawnEx, ClientOp.stop (Except.ok ()),
        ClientOp.restart none (Except.ok ()) spawnEx, ClientOp.request reqEx]
      (fun _ _ => rfl)⟩

/-- C8 (confirmed): on a successful download, the client writes exactly
the bytes of the remote body to the deterministically named file
`tika_path/tika-server.jar`, reports that byte count, returns the
`Download` artifact pointing at that file, and updates the config's
artifact location exactly once, to that `Download` artifact. -/
theorem C8_download_contract (c : TikaClient) (w : DownloadWorld) (body : List Nat)
    (hg : w.getResult = .ok body) (hc : w.createOk = true) (hcp : w.copyOk = true) :
    ∃ r, c.download_server_jar w = .ok r
      ∧ r.written = body.length
      ∧ r.file = .Download (c.config.tika_path ++ "/tika-server.jar")
      ∧ r.fsWrites = [(c.config.tika_path ++ "/tika-server.jar", body)]
      ∧ r.client.config.tika_server_file
          = .File (.Download (c.config.tika_path ++ "/tika-server.jar"))
      ∧ r.configUpdates = [.File (.Download (c.config.tika_path ++ "/tika-server.jar"))]
      ∧ r.configUpdates.length = 1 := by
  unfold TikaClient.download_server_jar
  rw [hg]
  simp only [hc, hcp, if_true]
  exact ⟨_, rfl, rfl, rfl, rfl, rfl, rfl, rfl⟩

/-- Download world for the witness: a four-byte remote body, filesystem
operations succeeding. -/
def dlWorldEx : DownloadWorld :=
  { getResult := .ok [80, 75, 3, 4], createOk := true, copyOk := true }

/-- C8 (witness). -/
theorem C8_witness :
    ∃ r, clientEx.download_server_jar dlWorldEx = .ok r
      ∧ r.written = [80, 75, 3, 4].length
      ∧ r.file = .Download (clientEx.config.tika_path ++ "/tika-server.jar")
      ∧ r.fsWrites = [(clientEx.config.tika_path ++ "/tika-server.jar", [80, 75, 3, 4])]
      ∧ r.client.config.tika_server_file
          = .File (.Download (clientEx.config.tika_path ++ "/tika-server.jar"))
      ∧ r.configUpdates
          = [.File (.Download (clientEx.config.tika_path ++ "/tika-server.jar"))]
      ∧ r.configUpdates.length = 1 :=
  C8_download_contract clientEx dlWorldEx [80, 75, 3, 4] rfl rfl rfl

/-- C9 (confirmed): when the language-detection response text is the
empty string, the call returns the Server error "Failed to detect
language. Got empty response." and never a successful empty language;
any non-empty response text is returned as the detected language. -/
theorem C9_detect_language_empty (c : TikaClient) (w : RequestWorld) (t : String)
    (hs : w.sendResult = .ok ()) (ht : w.textResult = .ok t) :
    (t = "" → c.detect_language w
      = .error (.server "Failed to detect language. Got empty response."))
    ∧ (t ≠ "" → c.detect_language w = .ok t) := by
  unfold TikaClient.detect_language
  rw [hs, ht]
  constructor
  · intro h
    subst h
    rfl
  · intro h
    simp [h]

/-- C9 (witness). -/
theorem C9_witness :
    clientEx.detect_language { sendResult := .ok (), textResult := .ok "" }
      = .error (.server "Failed to detect language. Got empty response.")
    ∧ clientEx.detect_language reqEx = .ok "en" :=
  ⟨(C9_detect_language_empty clientEx
      { sendResult := .ok (), textResult := .ok "" } "" rfl rfl).1 rfl,
    (C9_detect_language_empty clientEx reqEx "en" rfl rfl).2 (by decide)⟩

/-- C10 (confirmed): `TikaBuilder::build` never reads the builder's
`tika_server_file` field — two builders differing only in that field
build identical clients — and the built client's server-file location is
always the one recomputed from the environment by the resolver. -/
theorem C10_build_ignores_server_file (b : TikaBuilder) (env : Env)
    (l1 l2 : TikaServerFileLocation) :
    TikaBuilder.build { b with tika_server_file := l1 } env
      = TikaBuilder.build { b with tika_server_file := l2 } env
    ∧ ∀ c, TikaBuilder.build b env = .ok c →
        TikaServerFileLocation.defaultLoc env = .ok c.config.tika_server_file := by
  constructor
  · rfl
  · intro c hc
    unfold TikaBuilder.build at hc
    rcases hd : TikaServerFileLocation.defaultLoc env with m | e | loc <;> rw [hd] at hc
    · cases hc
    · cases hc
    · cases hc
      rfl

/-- Builder for the witness, carrying an explicit server-file value that
build then ignores. -/
def bEx : TikaBuilder :=
  { tika_mode := .ClientServer addrEx
    tika_version := none
    tika_path := none
    tika_server_file := .Remote "http://example.org/tika.jar"
    tika_translator := none
    server_verbosity := .Silent }

/-- Client actually produced by building `bEx` under `envEx`. -/
def cBuiltEx : TikaClient :=
  { config :=
      { tika_version := "1.20"
        tika_path := "/tmp"
        tika_server_file := .Remote (TikaConfig.remote_server_jar "1.20")
        tika_mode := .ClientServer addrEx
        tika_translator := .Lingo24
        server_verbosity := .Silent }
    server_endpoint := "http://127.0.0.1:9998"
    server_handle := none }

/-- C10 (witness). -/
theorem C10_witness :
    TikaBuilder.build { bEx with tika_server_file := .File (.Download "/tmp/other.jar") } envEx
      = TikaBuilder.build { bEx with tika_server_file := .Remote "http://example.org/tika.jar" } envEx
    ∧ TikaServerFileLocation.defaultLoc envEx = .ok cBuiltEx.config.tika_server_file :=
  ⟨(C10_build_ignores_server_file bEx envEx (.File (.Download "/tmp/other.jar"))
      (.Remote "http://example.org/tika.jar")).1,
    (C10_build_ignores_server_file bEx envEx (.File (.Download "/tmp/other.jar"))
      (.Remote "http://example.org/tika.jar")).2 cBuiltEx (by decide)⟩

end Rustika
